import Mathlib

/-!
Verification of the plugin-host session agent implemented in
src/v-connect-im/plugins/demo_plugin.py.

The Python source is shallowly embedded: the global mutable STATE becomes a
field of an explicit environment that is threaded through every operation,
and the remote hub together with the network layer is modelled as a script
of per-call outcomes consumed in order.  Every outbound HTTP call and every
HTTP response written back to the hub is recorded in an action trace, and
every successive value of the shared STATE object is recorded in a history
list (one entry per field assignment), so that statements about what a
concurrent observer of STATE can see become statements about that list.

Python exception semantics relevant to this program:
urllib.error.HTTPError is a subclass of urllib.error.URLError, so a clause
catching URLError also catches HTTPError.  This hierarchy is captured by
PyError.isURLError below.
-/

/-- JSON values, the result of json.loads on a request or response body.
Objects are modelled as association lists with distinct keys (Python dicts
produced by json.loads).  Numbers are restricted to integers, which covers
every value this program manipulates. -/
inductive JsonValue where
  | null
  | bool (b : Bool)
  | num (n : Int)
  | str (s : String)
  | arr (elems : List JsonValue)
  | obj (fields : List (String × JsonValue))

/-- Python truthiness of a JSON value, as used by if event_type: and
if event_id: in the source. -/
def JsonValue.truthy : JsonValue → Bool
  | .null => false
  | .bool b => b
  | .num n => n != 0
  | .str s => s != ""
  | .arr elems => !elems.isEmpty
  | .obj fields => !fields.isEmpty

/-- Whether the value is the Python None / JSON null. -/
def JsonValue.isNull : JsonValue → Bool
  | .null => true
  | _ => false

/-- First binding of a key in an association list, none when absent. -/
def findKey : List (String × JsonValue) → String → Option JsonValue
  | [], _ => none
  | (k, v) :: rest, key => if k == key then some v else findKey rest key

/-- Value of a key in an association list, null (Python None) when absent.
This is the value Python dict.get(key) returns for a parsed JSON object. -/
def lookupKey (fields : List (String × JsonValue)) (key : String) : JsonValue :=
  (findKey fields key).getD .null

/-- Exceptions this program can raise.  urllib.error.HTTPError carries the
HTTP status code; urlError is a urllib.error.URLError that is not an
HTTPError (connection failure or timeout); unicodeDecodeError is the
UnicodeDecodeError raised by bytes.decode on an invalid-encoding request
body, a ValueError sibling of json.JSONDecodeError and not caught by an
except json.JSONDecodeError clause; systemExit models raise SystemExit,
which terminates the process with a non-zero outcome. -/
inductive PyError where
  | httpError (code : Nat)
  | urlError
  | keyError (key : String)
  | typeError
  | attributeError
  | unicodeDecodeError
  | systemExit (msg : String)

/-- Which exceptions an except urllib.error.URLError clause catches.
HTTPError subclasses URLError in the Python standard library, so it is
caught as well. -/
def PyError.isURLError : PyError → Bool
  | .httpError _ => true
  | .urlError => true
  | _ => false

/-- Outcome of one HTTP exchange with the hub, scripted by the model:
a successful response with an already-parsed JSON body (an empty body
parses to the empty object, as in http_post), a non-success HTTP status,
or a network-layer failure. -/
inductive HttpResult where
  | ok (body : JsonValue)
  | httpError (code : Nat)
  | netError

/-- True when the scripted outcome is a failure of either kind. -/
def HttpResult.isErr : HttpResult → Bool
  | .ok _ => false
  | _ => true

/-- The shared mutable PluginState object (class PluginState).  A field
holds the Python value last assigned to it; null stands for Python None,
the initial value of both fields. -/
structure PluginState where
  plugin_id : JsonValue
  token : JsonValue

/-- PluginState.registered: both fields are not None. -/
def PluginState.registered (s : PluginState) : Bool :=
  !s.plugin_id.isNull && !s.token.isNull

/-- Observable actions: an outbound HTTP POST issued through http_post,
and an HTTP response written back to the hub by the callback handler. -/
inductive AgentAction where
  | post (url : String) (payload : JsonValue)
  | respond (status : Nat) (body : JsonValue)

/-- The execution environment threaded through every operation: the shared
STATE, the script of remaining hub responses, the trace of actions
performed so far, and the history of successive STATE values (one entry
per field assignment, in program order).  Any value appearing in history
is observable by the concurrently running threads of the source program,
which share STATE without a lock. -/
structure Env where
  state : PluginState
  responses : List HttpResult
  trace : List AgentAction
  history : List PluginState

/-- Assignment STATE.plugin_id = v, recording the new STATE in history. -/
def setPluginId (env : Env) (v : JsonValue) : Env :=
  let s : PluginState := { env.state with plugin_id := v }
  { env with state := s, history := env.history ++ [s] }

/-- Assignment STATE.token = v, recording the new STATE in history. -/
def setToken (env : Env) (v : JsonValue) : Env :=
  let s : PluginState := { env.state with token := v }
  { env with state := s, history := env.history ++ [s] }

/-- Base URL of the hub HTTP API (module constant VCON_API_BASE). -/
def VCON_API_BASE : String := "http://127.0.0.1:8080"

/-- Python str() of a JSON value as used inside f-strings when building
URLs.  Every theorem below instantiates interpolated values with strings,
for which str is the identity; container rendering is abbreviated. -/
def pyStr : JsonValue → String
  | .null => "None"
  | .bool true => "True"
  | .bool false => "False"
  | .num n => toString n
  | .str s => s
  | .arr _ => "<list>"
  | .obj _ => "<dict>"

/-- http_post: serialize the payload, issue the blocking request, parse
the JSON response.  The outbound call is always recorded in the trace
(the request is issued before the outcome is known); the outcome is taken
from the response script, an exhausted script behaving like an
unreachable hub (URLError). -/
def http_post (url : String) (payload : JsonValue) (env : Env) :
    Except PyError JsonValue × Env :=
  let env1 : Env := { env with trace := env.trace ++ [.post url payload] }
  match env1.responses with
  | [] => (.error .urlError, env1)
  | r :: rest =>
    let env2 : Env := { env1 with responses := rest }
    match r with
    | .ok body => (.ok body, env2)
    | .httpError c => (.error (.httpError c), env2)
    | .netError => (.error .urlError, env2)

/-- The fixed capability list sent on register and reconnect. -/
def capabilitiesJson : JsonValue :=
  .arr [.str "message", .str "room", .str "webhook", .str "connection", .str "user"]

/-- Registration request body built by register_plugin. -/
def registerPayload (callback_url : String) : JsonValue :=
  .obj [("name", .str "demo_python_plugin"),
        ("callback_url", .str callback_url),
        ("capabilities", capabilitiesJson)]

/-- URL of the registration endpoint. -/
def registerUrl : String := VCON_API_BASE ++ "/v1/plugins/register"

/-- Python subscript resp[key] on a parsed JSON value: KeyError when the
key is absent from an object, TypeError when the value is not an object. -/
def JsonValue.pyIndex (v : JsonValue) (key : String) : Except PyError JsonValue :=
  match v with
  | .obj fields =>
    match findKey fields key with
    | some x => .ok x
    | none => .error (.keyError key)
  | _ => .error (.typeError)

/-- Python dict.get(key) on a parsed JSON value: None (null) when the key
is absent, AttributeError when the value is not a dict. -/
def JsonValue.pyGet (v : JsonValue) (key : String) : Except PyError JsonValue :=
  match v with
  | .obj fields => .ok (lookupKey fields key)
  | _ => .error (.attributeError)

/-- register_plugin: post the registration request, then assign
STATE.plugin_id and STATE.token from the response in two separate
statements, each subscript raising KeyError when its key is missing.
The Python function returns None on success. -/
def register_plugin (callback_url : String) (env : Env) :
    Except PyError Unit × Env :=
  match http_post registerUrl (registerPayload callback_url) env with
  | (.error e, env1) => (.error e, env1)
  | (.ok resp, env1) =>
    match resp.pyIndex "plugin_id" with
    | .error e => (.error e, env1)
    | .ok pid =>
      let env2 := setPluginId env1 pid
      match resp.pyIndex "token" with
      | .error e => (.error e, env2)
      | .ok tok => (.ok (), setToken env2 tok)

/-- Reconnect request body built by reconnect_plugin. -/
def reconnectPayload (token : JsonValue) (callback_url : String) : JsonValue :=
  .obj [("token", token),
        ("callback_url", .str callback_url),
        ("capabilities", capabilitiesJson)]

/-- URL of the per-plugin reconnect endpoint. -/
def reconnectUrl (pid : JsonValue) : String :=
  VCON_API_BASE ++ "/v1/plugins/" ++ pyStr pid ++ "/reconnect"

/-- reconnect_plugin: delegate to register_plugin when not registered;
otherwise post the reconnect request, returning the parsed response on
success.  An HTTPError with status 400 is recovered by a fresh
register_plugin call; any other HTTPError is re-raised, and a URLError
that is not an HTTPError is not caught at all. -/
def reconnect_plugin (callback_url : String) (env : Env) :
    Except PyError (Option JsonValue) × Env :=
  if !env.state.registered then
    match register_plugin callback_url env with
    | (.ok _, env1) => (.ok none, env1)
    | (.error e, env1) => (.error e, env1)
  else
    match http_post (reconnectUrl env.state.plugin_id)
        (reconnectPayload env.state.token callback_url) env with
    | (.ok resp, env1) => (.ok (some resp), env1)
    | (.error e, env1) =>
      match e with
      | .httpError c =>
        if c == 400 then
          match register_plugin callback_url env1 with
          | (.ok _, env2) => (.ok none, env2)
          | (.error e2, env2) => (.error e2, env2)
        else (.error (.httpError c), env1)
      | _ => (.error e, env1)

/-- Body of the form built as a bare token dictionary, sent to the
heartbeat and stop endpoints. -/
def tokenPayload (token : JsonValue) : JsonValue :=
  .obj [("token", token)]

/-- URL of the per-plugin heartbeat endpoint. -/
def heartbeatUrl (pid : JsonValue) : String :=
  VCON_API_BASE ++ "/v1/plugins/" ++ pyStr pid ++ "/heartbeat"

/-- One iteration of the send_heartbeat loop body (the time.sleep between
iterations is not modelled): when STATE is registered, post the token to
the heartbeat endpoint, catching URLError (hence also HTTPError); when
not registered, do nothing.  An uncaught exception would terminate the
loop and is returned as an error. -/
def send_heartbeat_tick (env : Env) : Except PyError Unit × Env :=
  if env.state.registered then
    match http_post (heartbeatUrl env.state.plugin_id)
        (tokenPayload env.state.token) env with
    | (.ok _, env1) => (.ok (), env1)
    | (.error e, env1) =>
      if e.isURLError then (.ok (), env1) else (.error e, env1)
  else (.ok (), env)

/-- n iterations of the send_heartbeat loop, stopping early only if an
iteration raises an uncaught exception. -/
def send_heartbeat_loop : Nat → Env → Except PyError Unit × Env
  | 0, env => (.ok (), env)
  | n + 1, env =>
    match send_heartbeat_tick env with
    | (.ok _, env1) => send_heartbeat_loop n env1
    | (.error e, env1) => (.error e, env1)

/-- Body sent to the per-plugin ack endpoint. -/
def ackPayload (token event_id : JsonValue) : JsonValue :=
  .obj [("token", token), ("event_id", event_id)]

/-- URL of the per-plugin ack endpoint. -/
def ackUrl (pid : JsonValue) : String :=
  VCON_API_BASE ++ "/v1/plugins/" ++ pyStr pid ++ "/ack"

/-- ack_event: return immediately when not registered; otherwise post the
token and event id to the ack endpoint, catching URLError (hence also
HTTPError). -/
def ack_event (event_id : JsonValue) (env : Env) : Except PyError Unit × Env :=
  if !env.state.registered then (.ok (), env)
  else
    match http_post (ackUrl env.state.plugin_id)
        (ackPayload env.state.token event_id) env with
    | (.ok _, env1) => (.ok (), env1)
    | (.error e, env1) =>
      if e.isURLError then (.ok (), env1) else (.error e, env1)

/-- Python str.startswith on whatever value event_type holds:
AttributeError when the value is not a string. -/
def pyStartswith (v : JsonValue) (pre : String) : Except PyError Bool :=
  match v with
  | .str s => .ok (pre.isPrefixOf s)
  | _ => .error (.attributeError)

/-- The dispatch chain of do_POST: when event_type is truthy, an
if / elif cascade of startswith tests whose branches only print; each
test raises AttributeError when event_type is not a string.  The print
calls are not modelled, so every completed branch yields unit. -/
def dispatch_event (event_type : JsonValue) : Except PyError Unit :=
  if event_type.truthy then
    (pyStartswith event_type "room.").bind (fun b1 =>
      if b1 then .ok () else
        (pyStartswith event_type "connection.").bind (fun b2 =>
          if b2 then .ok () else
            (pyStartswith event_type "user.").bind (fun b3 =>
              if b3 then .ok () else
                (pyStartswith event_type "message.").bind (fun b4 =>
                  if b4 then .ok () else
                    (pyStartswith event_type "webhook.").bind (fun b5 =>
                      if b5 then .ok () else
                        (pyStartswith event_type "control.").bind (fun b6 =>
                          if b6 then .ok () else .ok ()))))))
  else .ok ()

/-- The 200 response body written by the callback handler. -/
def okBody : JsonValue := .obj [("status", .str "ok")]

/-- The part of CallbackHandler.do_POST that follows raw.decode.  The
decoded argument is the outcome of json.loads on the successfully
decoded body text: some v for a body parsing to v, none when json.loads
raises JSONDecodeError (malformed JSON text, or an absent body whose
read yields the empty string), which the handler catches and replaces by
the empty payload.  A body in an invalid encoding never reaches this
point: raw.decode raises before json.loads runs, see do_POST_request.
The handler reads event_type and event_id with dict.get, runs the
dispatch chain, writes the 200 response, and only then, when event_id is
truthy, calls ack_event.  An exception escaping the handler aborts the
request without any response having been written. -/
def do_POST (decoded : Option JsonValue) (env : Env) :
    Except PyError Unit × Env :=
  let payload : JsonValue :=
    match decoded with
    | some v => v
    | none => .obj []
  match payload.pyGet "event_type" with
  | .error e => (.error e, env)
  | .ok event_type =>
    match payload.pyGet "event_id" with
    | .error e => (.error e, env)
    | .ok event_id =>
      match dispatch_event event_type with
      | .error e => (.error e, env)
      | .ok _ =>
        let env1 : Env := { env with trace := env.trace ++ [.respond 200 okBody] }
        if event_id.truthy then ack_event event_id env1
        else (.ok (), env1)

/-- Outcome of the two body-decoding steps at the top of do_POST, for an
arbitrary inbound request body: raw.decode succeeds and json.loads
parses the text to a value; raw.decode succeeds but json.loads raises
JSONDecodeError (malformed JSON text, or the empty string read from an
absent body); or raw.decode itself raises UnicodeDecodeError because the
body bytes are not valid UTF-8. -/
inductive BodyRead where
  | decoded (v : JsonValue)
  | badJson
  | badEncoding

/-- CallbackHandler.do_POST on an arbitrary request body, starting from
the body-read outcome.  The except json.JSONDecodeError clause catches
only the badJson case, which proceeds with the empty payload; the
UnicodeDecodeError of the badEncoding case is not caught (it is not a
JSONDecodeError), so the handler aborts before any response is
written. -/
def do_POST_request : BodyRead → Env → Except PyError Unit × Env
  | .decoded v, env => do_POST (some v) env
  | .badJson, env => do_POST none env
  | .badEncoding, env => (.error .unicodeDecodeError, env)

/-- The startup registration loop of main, with the remaining number of
attempts as fuel: try register_plugin; stop on success; on a URLError
(which includes every HTTPError) sleep and try again; let any other
exception propagate.  Exhausting the attempts raises SystemExit. -/
def main_register_loop : Nat → String → Env → Except PyError Unit × Env
  | 0, _, env => (.error (.systemExit "register failed, abort"), env)
  | n + 1, callback_url, env =>
    match register_plugin callback_url env with
    | (.ok _, env1) => (.ok (), env1)
    | (.error e, env1) =>
      if e.isURLError then main_register_loop n callback_url env1
      else (.error e, env1)

/-- The startup registration phase of main: at most 10 attempts. -/
def main_register (callback_url : String) (env : Env) :
    Except PyError Unit × Env :=
  main_register_loop 10 callback_url env

/-- URL of the per-plugin stop endpoint. -/
def stopUrl (pid : JsonValue) : String :=
  VCON_API_BASE ++ "/v1/plugins/" ++ pyStr pid ++ "/stop"

/-- The KeyboardInterrupt handler at the end of main: when registered,
post the current token to the per-plugin stop endpoint, catching URLError
(hence also HTTPError); then let the process exit.  A normal return means
the process exits as intended. -/
def shutdown_handler (env : Env) : Except PyError Unit × Env :=
  if env.state.registered then
    match http_post (stopUrl env.state.plugin_id)
        (tokenPayload env.state.token) env with
    | (.ok _, env1) => (.ok (), env1)
    | (.error e, env1) =>
      if e.isURLError then (.ok (), env1) else (.error e, env1)
  else (.ok (), env)

/-- Listener bind host (module constant PLUGIN_SERVER_HOST). -/
def PLUGIN_SERVER_HOST : String := "127.0.0.1"

/-- Preferred listener port (module constant PLUGIN_SERVER_PORT). -/
def PLUGIN_SERVER_PORT : Nat := 9102

/-- Outcome of asking the operating system to bind a port: the actually
bound port (for a requested port of 0 the OS picks a free ephemeral
port), a PermissionError, or another OSError (port unavailable). -/
inductive BindOutcome where
  | ok (actualPort : Nat)
  | permissionError
  | osError

/-- True when the bind attempt failed. -/
def BindOutcome.isFail : BindOutcome → Bool
  | .ok _ => false
  | _ => true

/-- The callback URL built from the actually bound port. -/
def callbackUrlFor (port : Nat) : String :=
  "http://" ++ PLUGIN_SERVER_HOST ++ ":" ++ toString port ++ "/callback"

/-- The loop of start_callback_server over the list of ports to attempt,
accumulating the ports tried so far: on the first successful bind, start
serving and return the callback URL built from the actually bound port;
on PermissionError or OSError, move to the next candidate; when all
candidates fail, raise SystemExit. -/
def bindLoop (os : Nat → BindOutcome) :
    List Nat → List Nat → Except PyError String × List Nat
  | [], attempted => (.error (.systemExit "unable to bind callback server"), attempted)
  | port :: rest, attempted =>
    match os port with
    | .ok actualPort => (.ok (callbackUrlFor actualPort), attempted ++ [port])
    | .permissionError => bindLoop os rest (attempted ++ [port])
    | .osError => bindLoop os rest (attempted ++ [port])

/-- start_callback_server: attempt the preferred port, then port 0 (an
OS-assigned ephemeral port).  The os argument models the operating
system answer to a bind request on a given port.  The returned list is
the sequence of ports attempted, in order. -/
def start_callback_server (os : Nat → BindOutcome) :
    Except PyError String × List Nat :=
  bindLoop os [PLUGIN_SERVER_PORT, 0] []

/-- Helper: register_plugin issues exactly one outbound HTTP call, to the
registration endpoint, whatever the outcome of the attempt. -/
theorem register_plugin_trace (cb : String) (env : Env) :
    (register_plugin cb env).2.trace =
      env.trace ++ [.post registerUrl (registerPayload cb)] := by
  rcases env with ⟨s, rs, tr, hist⟩
  cases rs with
  | nil => rfl
  | cons r rest =>
    cases r with
    | ok body =>
      cases hp : body.pyIndex "plugin_id" with
      | error e => simp [register_plugin, http_post, hp]
      | ok pid =>
        cases ht : body.pyIndex "token" with
        | error e => simp [register_plugin, http_post, hp, ht, setPluginId]
        | ok tok => simp [register_plugin, http_post, hp, ht, setPluginId, setToken]
    | httpError c => rfl
    | netError => rfl

/-- Helper: a registration attempt against an exhausted response script
fails with a URLError and changes neither STATE nor the script. -/
theorem register_plugin_resp_nil (cb : String) (s : PluginState)
    (tr : List AgentAction) (hist : List PluginState) :
    register_plugin cb ⟨s, [], tr, hist⟩ =
      (.error .urlError,
        ⟨s, [], tr ++ [.post registerUrl (registerPayload cb)], hist⟩) := rfl

/-- Helper: a registration attempt whose call fails at the network layer
raises URLError and leaves STATE unchanged. -/
theorem register_plugin_resp_net (cb : String) (s : PluginState)
    (rest : List HttpResult) (tr : List AgentAction) (hist : List PluginState) :
    register_plugin cb ⟨s, .netError :: rest, tr, hist⟩ =
      (.error .urlError,
        ⟨s, rest, tr ++ [.post registerUrl (registerPayload cb)], hist⟩) := rfl

/-- Helper: a registration attempt answered with a non-success HTTP
status raises HTTPError with that status and leaves STATE unchanged. -/
theorem register_plugin_resp_http (cb : String) (c : Nat) (s : PluginState)
    (rest : List HttpResult) (tr : List AgentAction) (hist : List PluginState) :
    register_plugin cb ⟨s, .httpError c :: rest, tr, hist⟩ =
      (.error (.httpError c),
        ⟨s, rest, tr ++ [.post registerUrl (registerPayload cb)], hist⟩) := rfl

/-- Helper: a registration attempt answered with a response carrying both
credential keys succeeds, overwrites both STATE fields in order, and the
two successive STATE values entered into the observation history are the
half-updated pair and then the fully updated pair. -/
theorem register_plugin_resp_ok (cb : String) (s : PluginState)
    (np nt : JsonValue) (rest : List HttpResult) (tr : List AgentAction)
    (hist : List PluginState) :
    register_plugin cb
        ⟨s, .ok (.obj [("plugin_id", np), ("token", nt)]) :: rest, tr, hist⟩ =
      (.ok (), ⟨⟨np, nt⟩, rest, tr ++ [.post registerUrl (registerPayload cb)],
        hist ++ [⟨np, s.token⟩, ⟨np, nt⟩]⟩) := by
  simp [register_plugin, http_post, JsonValue.pyIndex, findKey, setPluginId, setToken]

/-- Claim C2 (amended): is_registered is true iff both plugin_id and
token are set (not None); but a successful registration is not an atomic
replace: it assigns plugin_id and then token in two separate statements,
so during a registration that starts from an unregistered state, the
shared STATE passes through an observable intermediate value in which
plugin_id is set and token still holds its previous value. -/
theorem C2_registration_atomicity_amended :
    (∀ s : PluginState,
      s.registered = true ↔ (s.plugin_id.isNull = false ∧ s.token.isNull = false))
  ∧ (∀ (s : PluginState) (cb : String) (np nt : JsonValue)
      (rest : List HttpResult) (tr : List AgentAction) (hist : List PluginState),
      register_plugin cb
          ⟨s, .ok (.obj [("plugin_id", np), ("token", nt)]) :: rest, tr, hist⟩ =
        (.ok (), ⟨⟨np, nt⟩, rest, tr ++ [.post registerUrl (registerPayload cb)],
          hist ++ [⟨np, s.token⟩, ⟨np, nt⟩]⟩)) := by
  constructor
  · intro s
    simp [PluginState.registered]
  · intro s cb np nt rest tr hist
    exact register_plugin_resp_ok cb s np nt rest tr hist

/-- Claim C2, counterexample to the claim as stated: a successful
registration that starts from the empty STATE makes the shared STATE pass
through the value in which plugin_id is the new id and token is still
None, i.e. an observer can see a state with exactly one credential field
set. -/
theorem C2_counterexample :
    ((register_plugin "u"
        ⟨⟨.null, .null⟩,
          [.ok (.obj [("plugin_id", .str "p"), ("token", .str "t")])],
          [], []⟩).2.history.head? = some ⟨.str "p", .null⟩)
  ∧ (JsonValue.str "p").isNull = false
  ∧ (JsonValue.null).isNull = true
  ∧ (PluginState.mk (.str "p") .null).registered = false := ⟨rfl, rfl, rfl, rfl⟩

/-- Claim C10: when the registration response contains plugin_id but not
token, register_plugin raises KeyError after having already stored the
new plugin_id: STATE is left with the new plugin_id and the previous
token, and is not restored. -/
theorem C10_partial_registration_state (s : PluginState) (cb : String)
    (np : JsonValue) (rest : List HttpResult) (tr : List AgentAction)
    (hist : List PluginState) :
    register_plugin cb ⟨s, .ok (.obj [("plugin_id", np)]) :: rest, tr, hist⟩ =
      (.error (.keyError "token"),
        ⟨⟨np, s.token⟩, rest, tr ++ [.post registerUrl (registerPayload cb)],
          hist ++ [⟨np, s.token⟩]⟩) := by
  simp [register_plugin, http_post, JsonValue.pyIndex, findKey, setPluginId]

/-- Claim C4: a reconnect in the registered state that the hub answers
with HTTP 400 falls back to exactly one registration call, after which
STATE holds the new response credentials, not the old ones; an HTTPError
with any other status, and a network-layer URLError, propagate unchanged
with STATE untouched. -/
theorem C4_reconnect_400_fallback :
    (∀ (p t : String) (np nt : JsonValue) (cb : String)
      (rest : List HttpResult) (tr : List AgentAction) (hist : List PluginState),
      reconnect_plugin cb
          ⟨⟨.str p, .str t⟩,
            .httpError 400 :: .ok (.obj [("plugin_id", np), ("token", nt)]) :: rest,
            tr, hist⟩ =
        (.ok none,
          ⟨⟨np, nt⟩, rest,
            tr ++ [.post (reconnectUrl (.str p)) (reconnectPayload (.str t) cb),
                   .post registerUrl (registerPayload cb)],
            hist ++ [⟨np, .str t⟩, ⟨np, nt⟩]⟩))
  ∧ (∀ (p t cb : String) (c : Nat) (rest : List HttpResult)
      (tr : List AgentAction) (hist : List PluginState), c ≠ 400 →
      reconnect_plugin cb ⟨⟨.str p, .str t⟩, .httpError c :: rest, tr, hist⟩ =
        (.error (.httpError c),
          ⟨⟨.str p, .str t⟩, rest,
            tr ++ [.post (reconnectUrl (.str p)) (reconnectPayload (.str t) cb)],
            hist⟩))
  ∧ (∀ (p t cb : String) (rest : List HttpResult)
      (tr : List AgentAction) (hist : List PluginState),
      reconnect_plugin cb ⟨⟨.str p, .str t⟩, .netError :: rest, tr, hist⟩ =
        (.error .urlError,
          ⟨⟨.str p, .str t⟩, rest,
            tr ++ [.post (reconnectUrl (.str p)) (reconnectPayload (.str t) cb)],
            hist⟩)) := by
  refine ⟨?_, ?_, ?_⟩
  · intro p t np nt cb rest tr hist
    simp [reconnect_plugin, register_plugin, http_post, PluginState.registered,
      JsonValue.isNull, JsonValue.pyIndex, findKey, setPluginId, setToken]
  · intro p t cb c rest tr hist hc
    simp [reconnect_plugin, http_post, PluginState.registered, JsonValue.isNull, hc]
  · intro p t cb rest tr hist
    simp [reconnect_plugin, http_post, PluginState.registered, JsonValue.isNull]

/-- Claim C4, witness: concrete instances of the three conjuncts, the
non-400 status instantiated at 500. -/
theorem C4_reconnect_witness :
    (reconnect_plugin "u"
        ⟨⟨.str "p", .str "t"⟩,
          [.httpError 400, .ok (.obj [("plugin_id", .str "p2"), ("token", .str "t2")])],
          [], []⟩ =
      (.ok none,
        ⟨⟨.str "p2", .str "t2"⟩, [],
          [.post (reconnectUrl (.str "p")) (reconnectPayload (.str "t") "u"),
           .post registerUrl (registerPayload "u")],
          [⟨.str "p2", .str "t"⟩, ⟨.str "p2", .str "t2"⟩]⟩))
  ∧ (500 : Nat) ≠ 400
  ∧ (reconnect_plugin "u" ⟨⟨.str "p", .str "t"⟩, [.httpError 500], [], []⟩ =
      (.error (.httpError 500),
        ⟨⟨.str "p", .str "t"⟩, [],
          [.post (reconnectUrl (.str "p")) (reconnectPayload (.str "t") "u")], []⟩))
  ∧ (reconnect_plugin "u" ⟨⟨.str "p", .str "t"⟩, [.netError], [], []⟩ =
      (.error .urlError,
        ⟨⟨.str "p", .str "t"⟩, [],
          [.post (reconnectUrl (.str "p")) (reconnectPayload (.str "t") "u")], []⟩)) :=
  ⟨C4_reconnect_400_fallback.1 "p" "t" (.str "p2") (.str "t2") "u" [] [] [],
   by decide,
   C4_reconnect_400_fallback.2.1 "p" "t" "u" 500 [] [] [] (by decide),
   C4_reconnect_400_fallback.2.2 "p" "t" "u" [] [] []⟩

/-- Claim C8: when STATE holds no credentials, reconnect_plugin delegates
to register_plugin: it returns the wrapped result of register_plugin on
the same environment (so the resulting state is that of a direct
register), and that execution issues exactly one outbound call, to the
registration endpoint, with no reconnect call. -/
theorem C8_reconnect_unregistered (cb : String) (env : Env)
    (h : env.state.registered = false) :
    reconnect_plugin cb env =
      (Except.map (fun _ => (none : Option JsonValue)) (register_plugin cb env).1,
        (register_plugin cb env).2)
  ∧ (register_plugin cb env).2.trace =
      env.trace ++ [.post registerUrl (registerPayload cb)] := by
  constructor
  · rw [reconnect_plugin, h]
    cases hr : register_plugin cb env with
    | mk r env1 =>
      cases r with
      | ok u => simp [Except.map]
      | error e => simp [Except.map]
  · exact register_plugin_trace cb env

/-- Claim C8, witness: reconnect on the freshly started agent state. -/
theorem C8_reconnect_witness :
    (PluginState.mk .null .null).registered = false
  ∧ reconnect_plugin "u" ⟨⟨.null, .null⟩, [], [], []⟩ =
      (Except.map (fun _ => (none : Option JsonValue))
          (register_plugin "u" ⟨⟨.null, .null⟩, [], [], []⟩).1,
        (register_plugin "u" ⟨⟨.null, .null⟩, [], [], []⟩).2) :=
  ⟨rfl, (C8_reconnect_unregistered "u" ⟨⟨.null, .null⟩, [], [], []⟩ rfl).1⟩

/-- Helper: when every remaining scripted outcome is a failure, the
startup registration loop exhausts its attempts and raises SystemExit. -/
theorem main_register_loop_exhaust (cb : String) :
    ∀ (n : Nat) (env : Env), env.responses.all HttpResult.isErr = true →
      (main_register_loop n cb env).1 =
        .error (.systemExit "register failed, abort") := by
  intro n
  induction n with
  | zero => intro env h; rfl
  | succ n ih =>
    intro env h
    rcases env with ⟨s, rs, tr, hist⟩
    cases rs with
    | nil =>
      rw [main_register_loop, register_plugin_resp_nil]
      exact ih ⟨s, [], tr ++ [.post registerUrl (registerPayload cb)], hist⟩ rfl
    | cons r rest =>
      simp only [List.all_cons, Bool.and_eq_true] at h
      cases r with
      | ok body => simp [HttpResult.isErr] at h
      | httpError c =>
        rw [main_register_loop, register_plugin_resp_http]
        exact ih _ h.2
      | netError =>
        rw [main_register_loop, register_plugin_resp_net]
        exact ih _ h.2

/-- Claim C1 (amended): during startup, a failed registration attempt is
retried when the failure is a URLError, which includes both the
network-layer failures and every HTTPError, since HTTPError subclasses
URLError; HTTP status errors are therefore retried rather than being
immediately fatal.  Exhausting all 10 attempts raises SystemExit
(non-zero outcome), a success stops the loop with STATE populated, and a
failure that is not a URLError (such as the KeyError raised by a success
response lacking the credential keys) is immediately fatal. -/
theorem C1_startup_retry_amended :
    (∀ (cb : String) (env : Env), env.responses.all HttpResult.isErr = true →
      (main_register cb env).1 = .error (.systemExit "register failed, abort"))
  ∧ (∀ (cb : String) (c : Nat) (s : PluginState) (rest : List HttpResult)
      (tr : List AgentAction) (hist : List PluginState),
      main_register cb ⟨s, .httpError c :: rest, tr, hist⟩ =
        main_register_loop 9 cb
          ⟨s, rest, tr ++ [.post registerUrl (registerPayload cb)], hist⟩)
  ∧ (∀ (cb : String) (s : PluginState) (np nt : JsonValue)
      (rest : List HttpResult) (tr : List AgentAction) (hist : List PluginState),
      main_register cb
          ⟨s, .ok (.obj [("plugin_id", np), ("token", nt)]) :: rest, tr, hist⟩ =
        (.ok (), ⟨⟨np, nt⟩, rest, tr ++ [.post registerUrl (registerPayload cb)],
          hist ++ [⟨np, s.token⟩, ⟨np, nt⟩]⟩))
  ∧ (∀ (cb : String) (s : PluginState) (rest : List HttpResult)
      (tr : List AgentAction) (hist : List PluginState),
      main_register cb ⟨s, .ok (.obj []) :: rest, tr, hist⟩ =
        (.error (.keyError "plugin_id"),
          ⟨s, rest, tr ++ [.post registerUrl (registerPayload cb)], hist⟩)) := by
  refine ⟨?_, ?_, ?_, ?_⟩
  · intro cb env h
    exact main_register_loop_exhaust cb 10 env h
  · intro cb c s rest tr hist
    rw [main_register, main_register_loop, register_plugin_resp_http]
    rfl
  · intro cb s np nt rest tr hist
    rw [main_register, main_register_loop, register_plugin_resp_ok]
  · intro cb s rest tr hist
    rfl

/-- Claim C1, witness: the exhaustion conjunct on a script of two
failures, the retry conjunct at status 503, and the immediate-fatality
conjunct on a success response lacking both keys. -/
theorem C1_startup_retry_witness :
    ([HttpResult.netError, HttpResult.httpError 503].all HttpResult.isErr = true)
  ∧ (main_register "u" ⟨⟨.null, .null⟩, [.netError, .httpError 503], [], []⟩).1 =
      .error (.systemExit "register failed, abort")
  ∧ main_register "u" ⟨⟨.null, .null⟩, [.httpError 503], [], []⟩ =
      main_register_loop 9 "u"
        ⟨⟨.null, .null⟩, [], [.post registerUrl (registerPayload "u")], []⟩
  ∧ main_register "u" ⟨⟨.null, .null⟩, [.ok (.obj [])], [], []⟩ =
      (.error (.keyError "plugin_id"),
        ⟨⟨.null, .null⟩, [], [.post registerUrl (registerPayload "u")], []⟩) :=
  ⟨rfl,
   C1_startup_retry_amended.1 "u" ⟨⟨.null, .null⟩, [.netError, .httpError 503], [], []⟩ rfl,
   C1_startup_retry_amended.2.1 "u" 503 ⟨.null, .null⟩ [] [] [],
   C1_startup_retry_amended.2.2.2 "u" ⟨.null, .null⟩ [] [] []⟩

/-- Claim C1, counterexample to the claim as stated: a startup whose
first registration attempt is answered with HTTP 500 is not terminated;
the HTTPError is caught by the except URLError clause, the attempt is
retried, and the second attempt succeeds.  The trace shows the two
registration calls. -/
theorem C1_counterexample :
    (main_register "u"
        ⟨⟨.null, .null⟩,
          [.httpError 500, .ok (.obj [("plugin_id", .str "p"), ("token", .str "t")])],
          [], []⟩).1 = .ok ()
  ∧ (main_register "u"
        ⟨⟨.null, .null⟩,
          [.httpError 500, .ok (.obj [("plugin_id", .str "p"), ("token", .str "t")])],
          [], []⟩).2.state = ⟨.str "p", .str "t"⟩
  ∧ (main_register "u"
        ⟨⟨.null, .null⟩,
          [.httpError 500, .ok (.obj [("plugin_id", .str "p"), ("token", .str "t")])],
          [], []⟩).2.trace =
      [.post registerUrl (registerPayload "u"),
       .post registerUrl (registerPayload "u")] := ⟨rfl, rfl, rfl⟩

/-- Helper: the dispatch chain never raises when event_type is a string;
each branch only prints. -/
theorem dispatch_event_str (s : String) : dispatch_event (.str s) = .ok () := by
  unfold dispatch_event pyStartswith
  cases h : (JsonValue.str s).truthy <;> simp [h, Except.bind]

/-- Helper: behaviour of ack_event on any environment: it always returns
normally (every failure of its call is a URLError-family failure and is
caught), never mutates STATE, and appends exactly one ack call to the
trace when the session is registered and nothing otherwise. -/
theorem ack_event_spec (event_id : JsonValue) (env : Env) :
    (ack_event event_id env).1 = .ok ()
  ∧ (ack_event event_id env).2.state = env.state
  ∧ (ack_event event_id env).2.trace =
      env.trace ++
        (if env.state.registered then
          [.post (ackUrl env.state.plugin_id)
            (ackPayload env.state.token event_id)]
        else []) := by
  rcases env with ⟨s, rs, tr, hist⟩
  cases hreg : s.registered
  · simp [ack_event, hreg]
  · cases rs with
    | nil => simp [ack_event, http_post, hreg, PyError.isURLError]
    | cons r rest =>
      cases r <;> simp [ack_event, http_post, hreg, PyError.isURLError]

/-- Helper: behaviour of do_POST on a payload that decodes to a JSON
object whose event_type is falsy or a string: the handler returns
normally, never mutates STATE, and its trace is the 200 response followed
by exactly one ack call when event_id is truthy and the session is
registered, and by nothing otherwise. -/
theorem do_POST_obj_spec (kvs : List (String × JsonValue)) (env : Env)
    (h : (lookupKey kvs "event_type").truthy = false ∨
         ∃ s, lookupKey kvs "event_type" = .str s) :
    (do_POST (some (.obj kvs)) env).1 = .ok ()
  ∧ (do_POST (some (.obj kvs)) env).2.state = env.state
  ∧ (do_POST (some (.obj kvs)) env).2.trace =
      env.trace ++ [.respond 200 okBody] ++
        (if (lookupKey kvs "event_id").truthy then
          (if env.state.registered then
            [.post (ackUrl env.state.plugin_id)
              (ackPayload env.state.token (lookupKey kvs "event_id"))]
          else [])
        else []) := by
  have hdisp : dispatch_event (lookupKey kvs "event_type") = .ok () := by
    rcases h with h | ⟨s, hs⟩
    · simp [dispatch_event, h]
    · rw [hs]; exact dispatch_event_str s
  unfold do_POST
  simp only [JsonValue.pyGet]
  rw [hdisp]
  by_cases hid : (lookupKey kvs "event_id").truthy
  · simp only [hid, if_true]
    obtain ⟨h1, h2, h3⟩ := ack_event_spec (lookupKey kvs "event_id")
      { env with trace := env.trace ++ [.respond 200 okBody] }
    refine ⟨h1, h2, ?_⟩
    rw [h3]
  · simp [hid]

/-- Claim C3 (amended): an inbound POST whose body is absent or is
malformed JSON in a valid encoding has its json.loads failure caught,
is treated as an empty payload, and is answered HTTP 200 with body
status ok; a body decoding to a JSON object whose event_type is falsy or
a string is likewise always answered 200 with that body, whatever the
rest of the payload.  A body in an invalid encoding, however, makes
raw.decode raise UnicodeDecodeError, which the except
json.JSONDecodeError clause does not catch: the handler aborts with no
response written; the same happens, with AttributeError, on a
well-formed body that is not a JSON object (see the counterexample). -/
theorem C3_callback_response_amended :
    (∀ env : Env, do_POST_request .badJson env =
      (.ok (), { env with trace := env.trace ++ [.respond 200 okBody] }))
  ∧ (∀ (kvs : List (String × JsonValue)) (env : Env),
      (lookupKey kvs "event_type").truthy = false ∨
        (∃ s, lookupKey kvs "event_type" = .str s) →
      (do_POST_request (.decoded (.obj kvs)) env).1 = .ok ()
      ∧ ∃ after, (do_POST_request (.decoded (.obj kvs)) env).2.trace =
          env.trace ++ [.respond 200 okBody] ++ after)
  ∧ (∀ env : Env, do_POST_request .badEncoding env =
      (.error .unicodeDecodeError, env)) := by
  refine ⟨?_, ?_, ?_⟩
  · intro env; rfl
  · intro kvs env h
    obtain ⟨h1, _, h3⟩ := do_POST_obj_spec kvs env h
    exact ⟨h1, ⟨_, h3⟩⟩
  · intro env; rfl

/-- Claim C3, witness: a payload with only an event id is answered 200. -/
theorem C3_callback_witness :
    ((lookupKey [("event_id", JsonValue.str "e1")] "event_type").truthy = false)
  ∧ (do_POST_request (.decoded (.obj [("event_id", .str "e1")]))
      ⟨⟨.null, .null⟩, [], [], []⟩).1 = .ok ()
  ∧ ∃ after, (do_POST_request (.decoded (.obj [("event_id", .str "e1")]))
      ⟨⟨.null, .null⟩, [], [], []⟩).2.trace =
        [] ++ [.respond 200 okBody] ++ after :=
  ⟨rfl,
   (C3_callback_response_amended.2.1 [("event_id", .str "e1")]
     ⟨⟨.null, .null⟩, [], [], []⟩ (Or.inl rfl)).1,
   (C3_callback_response_amended.2.1 [("event_id", .str "e1")]
     ⟨⟨.null, .null⟩, [], [], []⟩ (Or.inl rfl)).2⟩

/-- Claim C3, counterexample to the claim as stated: the body consisting
of the well-formed JSON text of an empty array is decoded successfully,
but payload.get then raises AttributeError, the handler aborts, and no
200 response is ever written (the trace stays empty): the request is not
answered, contradicting the claim that every body is answered 200.
A body in an invalid encoding is likewise never answered: raw.decode
raises UnicodeDecodeError, which is not a JSONDecodeError, so the body
is not treated as an empty payload and the handler aborts. -/
theorem C3_counterexample :
    do_POST_request (.decoded (.arr [])) ⟨⟨.null, .null⟩, [], [], []⟩ =
      (.error .attributeError, ⟨⟨.null, .null⟩, [], [], []⟩)
  ∧ do_POST_request .badEncoding ⟨⟨.null, .null⟩, [], [], []⟩ =
      (.error .unicodeDecodeError, ⟨⟨.null, .null⟩, [], [], []⟩) := ⟨rfl, rfl⟩

/-- Claim C5 (amended): within a single inbound event, the 200 response
precedes any acknowledgment call in the trace; an acknowledgment call is
issued iff the decoded (or empty) payload holds a truthy event_id and
the session is registered.  In particular a present but falsy event_id
(such as the empty string) triggers no acknowledgment. -/
theorem C5_ack_ordering_amended (kvs : List (String × JsonValue)) (env : Env)
    (h : (lookupKey kvs "event_type").truthy = false ∨
         ∃ s, lookupKey kvs "event_type" = .str s) :
    (do_POST (some (.obj kvs)) env).2.trace =
      env.trace ++ [.respond 200 okBody] ++
        (if (lookupKey kvs "event_id").truthy then
          (if env.state.registered then
            [.post (ackUrl env.state.plugin_id)
              (ackPayload env.state.token (lookupKey kvs "event_id"))]
          else [])
        else []) :=
  (do_POST_obj_spec kvs env h).2.2

/-- Claim C5, witness: in the registered state, a truthy event id yields
the 200 response followed by exactly one ack call. -/
theorem C5_ack_witness :
    (do_POST (some (.obj [("event_id", JsonValue.str "e1")]))
        ⟨⟨.str "p", .str "t"⟩, [.ok (.obj [])], [], []⟩).2.trace =
      [.respond 200 okBody,
       .post (ackUrl (.str "p")) (ackPayload (.str "t") (.str "e1"))] := by
  rw [C5_ack_ordering_amended [("event_id", JsonValue.str "e1")]
      ⟨⟨.str "p", .str "t"⟩, [.ok (.obj [])], [], []⟩ (Or.inl rfl)]
  rfl

/-- Claim C5, counterexample to the claim as stated: with the session
registered, a payload in which event_id is present but holds the empty
string produces the 200 response and no acknowledgment call at all,
although event_id was present in the decoded payload. -/
theorem C5_counterexample :
    do_POST (some (.obj [("event_id", JsonValue.str "")]))
        ⟨⟨.str "p", .str "t"⟩, [], [], []⟩ =
      (.ok (), ⟨⟨.str "p", .str "t"⟩, [], [.respond 200 okBody], []⟩) := rfl

/-- Helper: behaviour of one heartbeat iteration on any environment: it
always returns normally (every failure of its call is a URLError-family
failure and is caught), never mutates STATE, and appends exactly one
heartbeat call to the trace when the session is registered and nothing
otherwise. -/
theorem send_heartbeat_tick_spec (env : Env) :
    (send_heartbeat_tick env).1 = .ok ()
  ∧ (send_heartbeat_tick env).2.state = env.state
  ∧ (send_heartbeat_tick env).2.trace =
      env.trace ++
        (if env.state.registered then
          [.post (heartbeatUrl env.state.plugin_id)
            (tokenPayload env.state.token)]
        else []) := by
  rcases env with ⟨s, rs, tr, hist⟩
  cases hreg : s.registered
  · simp [send_heartbeat_tick, hreg]
  · cases rs with
    | nil => simp [send_heartbeat_tick, http_post, hreg, PyError.isURLError]
    | cons r rest =>
      cases r <;> simp [send_heartbeat_tick, http_post, hreg, PyError.isURLError]

/-- Helper: the heartbeat loop never stops on its own: no iteration can
raise an exception that escapes the except URLError clause. -/
theorem send_heartbeat_loop_ok :
    ∀ (n : Nat) (env : Env), (send_heartbeat_loop n env).1 = .ok () := by
  intro n
  induction n with
  | zero => intro env; rfl
  | succ n ih =>
    intro env
    have h := (send_heartbeat_tick_spec env).1
    rw [send_heartbeat_loop]
    cases htick : send_heartbeat_tick env with
    | mk r env1 =>
      rw [htick] at h
      cases r with
      | ok u => exact ih env1
      | error e => exact Except.noConfusion h

/-- Claim C6: a heartbeat iteration issues no call while unregistered and
exactly one heartbeat call once registered; it never mutates STATE and
always returns normally, so a NetworkError on one iteration neither
terminates the loop nor clears the session state; iterating the loop any
number of times never aborts. -/
theorem C6_heartbeat_best_effort :
    (∀ env : Env, (send_heartbeat_tick env).1 = .ok ()
      ∧ (send_heartbeat_tick env).2.state = env.state
      ∧ (send_heartbeat_tick env).2.trace =
          env.trace ++
            (if env.state.registered then
              [.post (heartbeatUrl env.state.plugin_id)
                (tokenPayload env.state.token)]
            else []))
  ∧ (∀ (p t : String) (rest : List HttpResult) (tr : List AgentAction)
      (hist : List PluginState),
      send_heartbeat_tick ⟨⟨.str p, .str t⟩, .netError :: rest, tr, hist⟩ =
        (.ok (), ⟨⟨.str p, .str t⟩, rest,
          tr ++ [.post (heartbeatUrl (.str p)) (tokenPayload (.str t))], hist⟩))
  ∧ (∀ (n : Nat) (env : Env), (send_heartbeat_loop n env).1 = .ok ()) :=
  ⟨send_heartbeat_tick_spec, fun _ _ _ _ _ => rfl, send_heartbeat_loop_ok⟩

/-- Claim C7: the listener tries the preferred port first and returns a
callback URL built from the port the bind actually produced; when the
preferred port fails (permission denied or unavailable), it binds the
OS-assigned ephemeral port and the callback URL reflects that port, not
the preferred one; when both attempts fail, startup aborts with
SystemExit. -/
theorem C7_bind_fallback :
    (∀ (os : Nat → BindOutcome) (p : Nat), os PLUGIN_SERVER_PORT = .ok p →
      start_callback_server os = (.ok (callbackUrlFor p), [PLUGIN_SERVER_PORT]))
  ∧ (∀ (os : Nat → BindOutcome) (p : Nat),
      (os PLUGIN_SERVER_PORT).isFail = true → os 0 = .ok p →
      start_callback_server os = (.ok (callbackUrlFor p), [PLUGIN_SERVER_PORT, 0]))
  ∧ (∀ os : Nat → BindOutcome,
      (os PLUGIN_SERVER_PORT).isFail = true → (os 0).isFail = true →
      start_callback_server os =
        (.error (.systemExit "unable to bind callback server"),
          [PLUGIN_SERVER_PORT, 0])) := by
  refine ⟨?_, ?_, ?_⟩
  · intro os p h
    simp [start_callback_server, bindLoop, h]
  · intro os p hfail hok
    cases hv : os PLUGIN_SERVER_PORT with
    | ok q => rw [hv] at hfail; simp [BindOutcome.isFail] at hfail
    | permissionError => simp [start_callback_server, bindLoop, hv, hok]
    | osError => simp [start_callback_server, bindLoop, hv, hok]
  · intro os hfail1 hfail2
    cases hv : os PLUGIN_SERVER_PORT with
    | ok q => rw [hv] at hfail1; simp [BindOutcome.isFail] at hfail1
    | permissionError =>
      cases hw : os 0 with
      | ok q => rw [hw] at hfail2; simp [BindOutcome.isFail] at hfail2
      | permissionError => simp [start_callback_server, bindLoop, hv, hw]
      | osError => simp [start_callback_server, bindLoop, hv, hw]
    | osError =>
      cases hw : os 0 with
      | ok q => rw [hw] at hfail2; simp [BindOutcome.isFail] at hfail2
      | permissionError => simp [start_callback_server, bindLoop, hv, hw]
      | osError => simp [start_callback_server, bindLoop, hv, hw]

/-- Claim C7, witness: an operating system that refuses the preferred
port 9102 and assigns 50000 to the ephemeral request, one that accepts
the preferred port, and one that refuses everything. -/
theorem C7_bind_witness :
    ((fun port => if port == 9102 then BindOutcome.osError
        else BindOutcome.ok 50000) PLUGIN_SERVER_PORT).isFail = true
  ∧ start_callback_server
      (fun port => if port == 9102 then BindOutcome.osError
        else BindOutcome.ok 50000) =
      (.ok (callbackUrlFor 50000), [PLUGIN_SERVER_PORT, 0])
  ∧ start_callback_server (fun _ => BindOutcome.ok 9102) =
      (.ok (callbackUrlFor 9102), [PLUGIN_SERVER_PORT])
  ∧ start_callback_server (fun _ => BindOutcome.permissionError) =
      (.error (.systemExit "unable to bind callback server"),
        [PLUGIN_SERVER_PORT, 0]) :=
  ⟨rfl,
   C7_bind_fallback.2.1
     (fun port => if port == 9102 then BindOutcome.osError else BindOutcome.ok 50000)
     50000 rfl rfl,
   C7_bind_fallback.1 (fun _ => BindOutcome.ok 9102) 9102 rfl,
   C7_bind_fallback.2.2 (fun _ => BindOutcome.permissionError) rfl rfl⟩

/-- Claim C9: on the shutdown signal, when the session is registered the
handler attempts exactly one stop call carrying the current token, and it
returns normally whatever the outcome of that call (every failure is a
URLError-family failure, caught and logged), after which the process
exits; when unregistered, no stop call is made. -/
theorem C9_shutdown_stop :
    (∀ env : Env, (shutdown_handler env).1 = .ok ()
      ∧ (shutdown_handler env).2.state = env.state
      ∧ (shutdown_handler env).2.trace =
          env.trace ++
            (if env.state.registered then
              [.post (stopUrl env.state.plugin_id)
                (tokenPayload env.state.token)]
            else []))
  ∧ (∀ (p t : String) (rest : List HttpResult) (tr : List AgentAction)
      (hist : List PluginState),
      shutdown_handler ⟨⟨.str p, .str t⟩, .netError :: rest, tr, hist⟩ =
        (.ok (), ⟨⟨.str p, .str t⟩, rest,
          tr ++ [.post (stopUrl (.str p)) (tokenPayload (.str t))], hist⟩)) := by
  constructor
  · intro env
    rcases env with ⟨s, rs, tr, hist⟩
    cases hreg : s.registered
    · simp [shutdown_handler, hreg]
    · cases rs with
      | nil => simp [shutdown_handler, http_post, hreg, PyError.isURLError]
      | cons r rest =>
        cases r <;> simp [shutdown_handler, http_post, hreg, PyError.isURLError]
  · intro p t rest tr hist
    rfl
